import Mathlib

/-!
Verification of the OpsPilot task-processing pipeline.

This file gives a shallow embedding, in Lean 4, of the pipeline orchestrator
and its collaborators from the OpsPilot prototype:

* `src/types.ts` — the data model (`Task`, `AgentLog`, `IntegrationConfig`);
* `src/services/geminiService.ts` — the three live-backend stage wrappers
  (`classifyTaskWithGemini`, `makeDecisionWithGemini`, `executeTaskWithGemini`);
* `src/services/gmailService.ts` — the external-mailbox adapter's error
  surfacing (`fetchRecentEmails`);
* `src/App.tsx` — the orchestrator (`processTask`), event ingestion
  (`handleManualDispatch`, the stream subscription, `pollEmails`),
  connector handling (`handleConnectClick`, `confirmConnection`,
  `handleGmailAuthSuccess`, `toggleAutoSummarize`), and the auto-trigger
  effect.

External effects (network calls to the reasoning backend, wall-clock time,
random identifiers) are modelled as explicit parameters: each live backend
call takes a `CallOutcome` oracle describing how the call resolved, and
timestamps are passed in as `now` arguments.  React `useState` state is
collected into an explicit `AppState` record; each event handler becomes a
function from state to state.  Log entry ids (random strings) and timestamps
are not modelled: a trace entry is its agent, message, and step kind.
-/

namespace OpsPilot

/-! ## Data model (src/types.ts) -/

/-- `AgentRole` from src/types.ts. -/
inductive AgentRole
  | INPUT
  | CLASSIFIER
  | DECISION
  | EXECUTION
  | MEMORY
deriving DecidableEq, Repr

/-- `TaskStatus` from src/types.ts. -/
inductive TaskStatus
  | PENDING
  | PROCESSING
  | COMPLETED
  | FAILED
deriving DecidableEq, Repr

/-- `TaskPriority` from src/types.ts. -/
inductive TaskPriority
  | HIGH
  | MEDIUM
  | LOW
deriving DecidableEq, Repr

/-- `TaskType` from src/types.ts. -/
inductive TaskType
  | ACTION_ITEM
  | QUESTION
  | INFORMATIONAL
  | UNKNOWN
deriving DecidableEq, Repr

/-- The task source channel: `'SLACK' | 'GMAIL' | 'NOTION'` in src/types.ts. -/
inductive Source
  | SLACK
  | GMAIL
  | NOTION
deriving DecidableEq, Repr

/-- The output kind: `'EMAIL' | 'PRD' | 'SUMMARY' | 'NONE'` in src/types.ts. -/
inductive OutputType
  | EMAIL
  | PRD
  | SUMMARY
  | NONE
deriving DecidableEq, Repr

/-- The step kind of a trace entry: `'THINKING' | 'ACTION' | 'RESULT'`. -/
inductive StepKind
  | THINKING
  | ACTION
  | RESULT
deriving DecidableEq, Repr

/-- `Task` from src/types.ts.  TypeScript optional fields become `Option`;
a field name ending in `?` marks an optional field of the interface. -/
structure Task where
  id : String
  source : Source
  rawContent : String
  sender : String
  timestamp : Nat
  status : TaskStatus
  type? : Option TaskType := none
  priority? : Option TaskPriority := none
  summary? : Option String := none
  entities? : Option (List String) := none
  nextAction? : Option String := none
  reasoning? : Option String := none
  outputContent? : Option String := none
  outputType? : Option OutputType := none
deriving DecidableEq, Repr

/-- `AgentLog` from src/types.ts, restricted to the fields the pipeline
reasons about.  The random `id`, the wall-clock `timestamp` and the untyped
`data` snapshot are not modelled. -/
structure AgentLog where
  agent : AgentRole
  message : String
  step : StepKind
deriving DecidableEq, Repr

/-- `IntegrationConfig` from src/types.ts.  The connector `id` is kept as a
string (`'slack' | 'gmail' | 'notion'` in the source).  `autoSummarize` is an
optional boolean in TypeScript but is always initialised to `false` by
App.tsx, so it is modelled as `Bool`. -/
structure IntegrationConfig where
  id : String
  name : String
  description : String
  isConnected : Bool
  lastSync : Option Nat := none
  connectedAccount : Option String := none
  autoSummarize : Bool := false
  accessToken : Option String := none
deriving DecidableEq, Repr

/-- The classifier stage's structured result (return type of
`classifyTaskWithGemini` in src/services/geminiService.ts). -/
structure Classification where
  type : TaskType
  priority : TaskPriority
  summary : String
  entities : List String
deriving DecidableEq, Repr

/-- The decision stage's structured result (return type of
`makeDecisionWithGemini` in src/services/geminiService.ts). -/
structure Decision where
  action : String
  reasoning : String
  outputType : OutputType
deriving DecidableEq, Repr

/-! ## Live backend calls (src/services/geminiService.ts)

Each exported service function wraps one `ai.models.generateContent` call in
a `try`/`catch`.  The way that call resolves is modelled by a `CallOutcome`
oracle: `throw` covers every path on which the service's `catch` fires — the
HTTP call rejecting, the response carrying no text (`if (!text) throw`), and
`JSON.parse` failing — while `ok` carries the schema-validated structured
value.  `getAI` throws when the supplied api key is empty, which is also
caught by the surrounding `catch`. -/

/-- How one live `generateContent` call resolved, as observed by the
service code after response handling and parsing. -/
inductive CallOutcome (α : Type)
  | throw
  | ok (value : α)
deriving DecidableEq, Repr

/-- `classifyTaskWithGemini` (src/services/geminiService.ts:14-62).
On any failure of the live call the `catch` block substitutes the fallback
`{ type: UNKNOWN, priority: MEDIUM, summary: "Failed to classify
automatically.", entities: [] }`; the function never throws.  The
`rawContent` and `sender` arguments only shape the prompt, so they do not
affect the modelled result. -/
def classifyTaskWithGemini (apiKey : String) (call : CallOutcome Classification)
    (_rawContent _sender : String) : Classification :=
  if apiKey = "" then
    { type := TaskType.UNKNOWN, priority := TaskPriority.MEDIUM,
      summary := "Failed to classify automatically.", entities := [] }
  else
    match call with
    | CallOutcome.throw =>
        { type := TaskType.UNKNOWN, priority := TaskPriority.MEDIUM,
          summary := "Failed to classify automatically.", entities := [] }
    | CallOutcome.ok c => c

/-- `makeDecisionWithGemini` (src/services/geminiService.ts:68-119).
On any failure the `catch` block substitutes
`{ action: "Manual Review Required", reasoning: "AI processing failed.",
outputType: NONE }`; the function never throws.  The task argument only
shapes the prompt. -/
def makeDecisionWithGemini (apiKey : String) (call : CallOutcome Decision)
    (_task : Task) : Decision :=
  if apiKey = "" then
    { action := "Manual Review Required", reasoning := "AI processing failed.",
      outputType := OutputType.NONE }
  else
    match call with
    | CallOutcome.throw =>
        { action := "Manual Review Required", reasoning := "AI processing failed.",
          outputType := OutputType.NONE }
    | CallOutcome.ok d => d

/-- JavaScript template-literal interpolation of a possibly-absent string
field: `${task.summary}` renders `undefined` as the string `"undefined"`. -/
def jsInterp : Option String → String
  | none => "undefined"
  | some s => s

/-- The prompt dispatch of `executeTaskWithGemini`
(src/services/geminiService.ts:129-136), kept for reference: PRD and EMAIL
get kind-specific templates, everything else the bullet-point digest. -/
def executionPrompt (task : Task) : String :=
  if task.outputType? = some OutputType.PRD then
    "Generate a structured Product Requirement Document (PRD) in Markdown based on this request: \"" ++ task.rawContent ++ "\". Include Problem, Goals, User Stories, and Tech Stack."
  else if task.outputType? = some OutputType.EMAIL then
    "Draft a professional, concise follow-up email to " ++ task.sender ++ " regarding: \"" ++ jsInterp task.summary? ++ "\". Use a helpful tone."
  else
    "Generate a detailed summary and actionable bullet points for this content: \"" ++ task.rawContent ++ "\""

/-- `executeTaskWithGemini` (src/services/geminiService.ts:125-148).
On any failure the `catch` block returns the literal string
`"Error generating content."`; on success `response.text || "No content
generated."` replaces an empty text by the placeholder.  The function never
throws. -/
def executeTaskWithGemini (apiKey : String) (call : CallOutcome String)
    (_task : Task) : String :=
  if apiKey = "" then "Error generating content."
  else
    match call with
    | CallOutcome.throw => "Error generating content."
    | CallOutcome.ok t => if t = "" then "No content generated." else t

/-! ## Application state (src/App.tsx)

The `useState` hooks of the `App` component that the pipeline touches are
collected into one record.  `userApiKey` and the `API_KEY` environment value
are configuration read during a run and live in `Config`. -/

/-- The pipeline-relevant `useState` state of `App` (src/App.tsx:356-394):
the task store, the trace buffer, the global processing flag, and the
connector registry. -/
structure AppState where
  tasks : List Task
  logs : List AgentLog
  isProcessing : Bool
  integrations : List IntegrationConfig
deriving DecidableEq, Repr

/-- Credential configuration: the user-supplied key (localStorage-backed
`userApiKey`) and the environment key `getEnv('API_KEY')`. -/
structure Config where
  userApiKey : String
  envApiKey : String
deriving DecidableEq, Repr

/-- `const effectiveKey = userApiKey || getEnv('API_KEY')`
(src/App.tsx:774): the user key takes precedence when non-empty. -/
def effectiveKey (cfg : Config) : String :=
  if cfg.userApiKey = "" then cfg.envApiKey else cfg.userApiKey

/-- The three stage calls the orchestrator awaits in live mode.  `Except`
models the awaited promise: `error` is a rejection escaping the call (caught
by the orchestrator's top-level `catch`, src/App.tsx:847). -/
structure Backend where
  classify : String → String → Except Unit Classification
  decide : Task → Except Unit Decision
  execute : Task → Except Unit String

/-- Per-run resolution of the three live `generateContent` calls. -/
structure GeminiOracles where
  classifyCall : CallOutcome Classification
  decideCall : CallOutcome Decision
  executeCall : CallOutcome String

/-- The live backend as the orchestrator sees it: each geminiService wrapper
catches every internal failure and resolves normally, so the `Backend`
functions built from them never reject. -/
def liveBackend (apiKey : String) (o : GeminiOracles) : Backend where
  classify := fun rawContent sender =>
    Except.ok (classifyTaskWithGemini apiKey o.classifyCall rawContent sender)
  decide := fun task => Except.ok (makeDecisionWithGemini apiKey o.decideCall task)
  execute := fun task => Except.ok (executeTaskWithGemini apiKey o.executeCall task)

/-- A backend every call of which rejects; used for concrete evaluations of
the simulation path, which never consults the backend. -/
def dummyBackend : Backend where
  classify := fun _ _ => Except.error ()
  decide := fun _ => Except.error ()
  execute := fun _ => Except.error ()

/-- A trace entry as appended by `addLog` (src/App.tsx:640-650). -/
def mkLog (agent : AgentRole) (message : String) (step : StepKind) : AgentLog :=
  { agent := agent, message := message, step := step }

/-! ## The orchestrator `processTask` (src/App.tsx:761-853) -/

/-- `{ ...task, ...classification }` (src/App.tsx:814): the classifier's
fields merged onto a task. -/
def mergeClassification (task : Task) (c : Classification) : Task :=
  { task with type? := some c.type, priority? := some c.priority,
              summary? := some c.summary, entities? := some c.entities }

/-- `{ ...task, ...decision }` (src/App.tsx:826): the decision's fields
merged onto a task.  The spread also copies the decision's `action` property,
but `action` is not a declared field of the `Task` interface (its declared
counterpart `nextAction` is never written), so only `reasoning` and
`outputType` land on modelled fields. -/
def mergeDecision (task : Task) (d : Decision) : Task :=
  { task with reasoning? := some d.reasoning, outputType? := some d.outputType }

/-- The finalized task `{ ...task, ...classification, ...decision,
outputContent: output, status: COMPLETED }` (src/App.tsx:836-842), built from
the originally-found `task`. -/
def mkFinalTask (task : Task) (c : Classification) (d : Decision)
    (output : Option String) : Task :=
  { mergeDecision (mergeClassification task c) d with
      outputContent? := output, status := TaskStatus.COMPLETED }

/-- The simulated classification (src/App.tsx:784-789). -/
def simClassification (task : Task) : Classification :=
  { type := TaskType.ACTION_ITEM, priority := TaskPriority.HIGH,
    summary := "[Simulated] " ++ task.rawContent.take 50 ++ "...",
    entities := ["Simulation", "Demo"] }

/-- The simulated decision (src/App.tsx:793-797): output kind EMAIL for a
GMAIL task, PRD otherwise. -/
def simDecision (task : Task) : Decision :=
  { action := "Draft Content",
    reasoning := "Simulated decision based on missing API key.",
    outputType := if task.source = Source.GMAIL then OutputType.EMAIL else OutputType.PRD }

/-- The simulated PRD output (src/App.tsx:802).  `${task.summary}`
interpolates the original task's summary field. -/
def simulatedPRD (task : Task) : String :=
  "# Simulated PRD\n\n**Feature**: " ++ jsInterp task.summary? ++
    "\n\n## Overview\nThis is a generated response in simulation mode because a valid Gemini API Key was not detected.\n\nTo get real AI responses:\n1. Go to Settings\n2. Enter your Google Gemini API Key\n\n## Requirements\n- [ ] Requirement 1\n- [ ] Requirement 2"

/-- The simulated email-draft output (src/App.tsx:804). -/
def simulatedEmail (task : Task) : String :=
  "Subject: Re: " ++ jsInterp task.summary? ++
    "\n\nHi there,\n\nThis is a simulated email draft generated by OpsPilot in demo mode.\n\nPlease configure your API Key in Settings to generate real content.\n\nBest,\nOpsPilot"

/-- The four trace entries of the simulation branch
(src/App.tsx:781-806), in call order. -/
def simLogs (d : Decision) : List AgentLog :=
  [mkLog AgentRole.CLASSIFIER "No API Key available. Running in SIMULATION mode." StepKind.THINKING,
   mkLog AgentRole.CLASSIFIER "Classification complete (Simulated)" StepKind.RESULT,
   mkLog AgentRole.DECISION ("Decision made: " ++ d.action ++ " (Simulated)") StepKind.ACTION,
   mkLog AgentRole.EXECUTION "Content generated successfully (Simulated)" StepKind.RESULT]

/-- Outcome of the `try` body of `processTask`: either the run reached
finalization with the stage results and the trace entries logged so far, or
an exception escaped a stage call and the run aborts with the entries logged
up to that point. -/
inductive RunOutcome
  | completed (c : Classification) (d : Decision) (output : Option String)
      (logs : List AgentLog)
  | aborted (logs : List AgentLog)

/-- The staged pipeline inside `processTask`'s `try` (src/App.tsx:772-833):
the simulation branch when no effective key is configured, otherwise
classify → recall (fixed-latency no-op) → decide → execute, where each
awaited backend call may reject. -/
def runStages (cfg : Config) (b : Backend) (task : Task) : RunOutcome :=
  if effectiveKey cfg = "" then
    let classification := simClassification task
    let decision := simDecision task
    let output :=
      if decision.outputType = OutputType.PRD then simulatedPRD task else simulatedEmail task
    RunOutcome.completed classification decision (some output) (simLogs decision)
  else
    let l1 := mkLog AgentRole.CLASSIFIER "Analyzing message intent and entities..." StepKind.THINKING
    match b.classify task.rawContent task.sender with
    | Except.error _ => RunOutcome.aborted [l1]
    | Except.ok classification =>
      let ls2 := [l1,
        mkLog AgentRole.CLASSIFIER "Classification complete" StepKind.RESULT,
        mkLog AgentRole.MEMORY "Checking context and previous constraints..." StepKind.THINKING,
        mkLog AgentRole.MEMORY "No conflicting blocking constraints found." StepKind.RESULT,
        mkLog AgentRole.DECISION "Determining optimal execution path..." StepKind.THINKING]
      let updatedTaskForDecision := mergeClassification task classification
      match b.decide updatedTaskForDecision with
      | Except.error _ => RunOutcome.aborted ls2
      | Except.ok decision =>
        let ls3 := ls2 ++ [mkLog AgentRole.DECISION ("Decision made: " ++ decision.action) StepKind.ACTION]
        if decision.outputType = OutputType.NONE then
          RunOutcome.completed classification decision none
            (ls3 ++ [mkLog AgentRole.EXECUTION "No content generation required. Updating records." StepKind.ACTION])
        else
          let ls4 := ls3 ++ [mkLog AgentRole.EXECUTION ("Executing action: " ++ decision.action ++ "...") StepKind.ACTION]
          match b.execute (mergeDecision updatedTaskForDecision decision) with
          | Except.error _ => RunOutcome.aborted ls4
          | Except.ok output =>
            RunOutcome.completed classification decision (some output)
              (ls4 ++ [mkLog AgentRole.EXECUTION "Content generated successfully" StepKind.RESULT])

/-- A status change performed on the task store: task id, status before,
status after. -/
abbrev StatusEvent := String × TaskStatus × TaskStatus

/-- Finalization (src/App.tsx:844-845): store the finalized task and append
the closing MEMORY entry.  The trace buffer was cleared at run entry, so the
run's entries are exactly `logs` plus this final entry. -/
def finishRun (st1 : AppState) (taskId : String) (finalTask : Task)
    (logs : List AgentLog) : AppState :=
  { st1 with
      isProcessing := false,
      logs := logs ++ [mkLog AgentRole.MEMORY "Task lifecycle completed. State updated." StepKind.RESULT],
      tasks := st1.tasks.map (fun t => if t.id = taskId then finalTask else t) }

/-- The `catch` block (src/App.tsx:847-849): log the failure and set the
stored task's status to FAILED, leaving its other fields as they stand. -/
def abortRun (st1 : AppState) (taskId : String) (logs : List AgentLog) : AppState :=
  { st1 with
      isProcessing := false,
      logs := logs ++ [mkLog AgentRole.EXECUTION "Critical Failure in processing chain" StepKind.RESULT],
      tasks := st1.tasks.map (fun t =>
        if t.id = taskId then { t with status := TaskStatus.FAILED } else t) }

/-- Run entry (src/App.tsx:768-770): set the global processing flag, clear
the trace buffer, and mark the submitted task PROCESSING. -/
def startRun (st : AppState) (taskId : String) : AppState :=
  { st with
      isProcessing := true,
      logs := [],
      tasks := st.tasks.map (fun t =>
        if t.id = taskId then { t with status := TaskStatus.PROCESSING } else t) }

/-- The orchestrator entry point `processTask` (src/App.tsx:761-853),
returning the new state together with the status changes it performed.
Entry guards: unknown task id is a no-op; a task in PROCESSING or COMPLETED
is a no-op ("Prevent double processing").  Otherwise: start the run, execute
the staged pipeline, and finalize (COMPLETED) or abort (FAILED).  The run is
modelled atomically: the source's awaits suspend it, but no other handler
mutates the task being processed meanwhile. -/
def processTask (st : AppState) (cfg : Config) (b : Backend) (taskId : String) :
    AppState × List StatusEvent :=
  match st.tasks.find? (fun t => t.id == taskId) with
  | none => (st, [])
  | some task =>
    if task.status = TaskStatus.PROCESSING ∨ task.status = TaskStatus.COMPLETED then
      (st, [])
    else
      let st1 : AppState := startRun st taskId
      match runStages cfg b task with
      | RunOutcome.completed c d output logs =>
          (finishRun st1 taskId (mkFinalTask task c d output) logs,
           [(taskId, task.status, TaskStatus.PROCESSING),
            (taskId, TaskStatus.PROCESSING, TaskStatus.COMPLETED)])
      | RunOutcome.aborted logs =>
          (abortRun st1 taskId logs,
           [(taskId, task.status, TaskStatus.PROCESSING),
            (taskId, TaskStatus.PROCESSING, TaskStatus.FAILED)])

/-! ## Event ingestion (src/App.tsx) -/

/-- The string form of a source tag, as interpolated into log messages. -/
def sourceName : Source → String
  | Source.SLACK => "SLACK"
  | Source.GMAIL => "GMAIL"
  | Source.NOTION => "NOTION"

/-- `t.source.toLowerCase()` (src/App.tsx:859), the connector id of a task's
source. -/
def sourceLower : Source → String
  | Source.SLACK => "slack"
  | Source.GMAIL => "gmail"
  | Source.NOTION => "notion"

/-- `handleManualDispatch` (src/App.tsx:657-675): rejects blank
(whitespace-only) content as a silent no-op, otherwise prepends a fresh
PENDING task with a canned per-source sender and logs the dispatch. -/
def handleManualDispatch (st : AppState) (source : Source) (content : String)
    (now : Nat) : AppState :=
  if content.trim = "" then st
  else
    let newTask : Task :=
      { id := "manual-" ++ toString now, source := source, rawContent := content,
        sender := match source with
          | Source.SLACK => "Demo User"
          | Source.GMAIL => "demo@example.com"
          | Source.NOTION => "Notion Bot",
        timestamp := now, status := TaskStatus.PENDING,
        type? := some TaskType.UNKNOWN }
    { st with
        tasks := newTask :: st.tasks,
        logs := st.logs ++ [mkLog AgentRole.INPUT
          ("Manual Dispatch: Received custom signal from " ++ sourceName source)
          StepKind.ACTION] }

/-- The stream subscription handler (src/App.tsx:474-477) receiving a task
generated by `streamService.generateRandomTask`
(src/services/streamService.ts:60-92): the generator draws sender/content
from fixed per-source pools (source SLACK or GMAIL only), assigns a random
HIGH/MEDIUM priority, and always creates the task in PENDING. -/
def streamEmit (st : AppState) (source : Source) (sender content : String)
    (prio : TaskPriority) (now : Nat) : AppState :=
  let newTask : Task :=
    { id := "stream-" ++ toString now, source := source, sender := sender,
      rawContent := content, timestamp := now, status := TaskStatus.PENDING,
      priority? := some prio }
  { st with
      tasks := newTask :: st.tasks,
      logs := st.logs ++ [mkLog AgentRole.INPUT
        ("Stream Event: New signal from " ++ sourceName source) StepKind.ACTION] }

/-! ## External mailbox polling (src/App.tsx:502-550,
src/services/gmailService.ts) -/

/-- `GmailMessage` from src/services/gmailService.ts (field `from` is a Lean
keyword, hence `from_`).  `internalDate` is the remote timestamp string. -/
structure GmailMessage where
  id : String
  threadId : String
  labelIds : List String
  snippet : String
  internalDate : String
  subject : String
  from_ : String
deriving DecidableEq, Repr

/-- The deterministic local identifier derived from a remote item's id:
`` `gmail-${email.id}` `` (src/App.tsx:515-517). -/
def gmailTaskId (remoteId : String) : String := "gmail-" ++ remoteId

/-- `parseInt(email.internalDate) || Date.now()` (src/App.tsx:521): an
unparseable (or zero, hence falsy) timestamp falls back to the current time.
JavaScript `parseInt` accepts a digit prefix; the model parses the full
string, which only affects the timestamp value, not admission. -/
def parseTimestamp (internalDate : String) (now : Nat) : Nat :=
  match internalDate.toNat? with
  | some n => if n = 0 then now else n
  | none => now

/-- The task built from one polled remote item (src/App.tsx:516-525). -/
def mkGmailTask (now : Nat) (email : GmailMessage) : Task :=
  { id := gmailTaskId email.id, source := Source.GMAIL, sender := email.from_,
    rawContent := "Subject: " ++ email.subject ++ "\n\n" ++ email.snippet ++ "...",
    timestamp := parseTimestamp email.internalDate now,
    status := TaskStatus.PENDING, type? := some TaskType.UNKNOWN }

/-- The successful-fetch path of `pollEmails` (src/App.tsx:511-535): admit
each polled item whose derived identifier is not already the id of a task in
the store, prepending the admitted tasks and logging once when any were
admitted. -/
def pollEmailsOk (st : AppState) (emails : List GmailMessage) (now : Nat) : AppState :=
  let newTasks :=
    (emails.filter (fun email =>
      (st.tasks.find? (fun t => t.id == gmailTaskId email.id)).isNone)).map
      (mkGmailTask now)
  if 0 < newTasks.length then
    { st with
        tasks := newTasks ++ st.tasks,
        logs := st.logs ++ [mkLog AgentRole.INPUT
          ("Gmail API: Fetched " ++ toString newTasks.length ++ " new real emails")
          StepKind.ACTION] }
  else st

/-- JavaScript `String.prototype.includes`: does `pat` occur as a contiguous
substring of `s`?  Computed over the character lists. -/
def strIncludes (s pat : String) : Bool :=
  (List.range (s.toList.length + 1)).any
    (fun i => pat.toList.isPrefixOf (s.toList.drop i))

/-- The string form of the error `fetchRecentEmails` throws for a non-ok
list response (src/services/gmailService.ts:26-28): `String(err)` of
`new Error("Gmail API List Error: " + statusText)`.  The HTTP status code
itself does not appear; only the reason phrase does. -/
def fetchListErrorString (statusText : String) : String :=
  "Error: Gmail API List Error: " ++ statusText

/-- The failed-fetch path of `pollEmails` (src/App.tsx:536-543): if the
stringified error contains `'401'`, log the expiry and mark the gmail
connector disconnected with its access token cleared; any other error is
only written to the console. -/
def pollEmailsErr (st : AppState) (errString : String) : AppState :=
  if strIncludes errString "401" then
    { st with
        logs := st.logs ++ [mkLog AgentRole.INPUT
          "Gmail Auth expired. Please reconnect." StepKind.RESULT],
        integrations := st.integrations.map (fun i =>
          if i.id = "gmail" then
            { i with isConnected := false, accessToken := none }
          else i) }
  else st

/-! ## Connector registry operations (src/App.tsx:580-638) -/

/-- The initial connector registry (src/App.tsx:390-394). -/
def initialIntegrations : List IntegrationConfig :=
  [{ id := "slack", name := "Slack",
     description := "Listen to engineering and product channels.",
     isConnected := false, autoSummarize := false },
   { id := "gmail", name := "Gmail",
     description := "Monitor support and info inboxes.",
     isConnected := false, autoSummarize := false },
   { id := "notion", name := "Notion",
     description := "Watch for new pages in Product Workspace.",
     isConnected := false, autoSummarize := false }]

/-- `handleConnectClick` (src/App.tsx:589-613) restricted to the connector
registry.  For a connected connector it disconnects, clearing the account,
the auto-summarize flag and the access token; for a disconnected connector
it only opens the auth modal (or requests an OAuth token for gmail), which
does not edit the registry. -/
def handleConnectClick (ints : List IntegrationConfig) (id : String) :
    List IntegrationConfig :=
  match ints.find? (fun i => i.id == id) with
  | none => ints
  | some integration =>
    if integration.isConnected then
      ints.map (fun i =>
        if i.id = id then
          { i with isConnected := false, connectedAccount := none,
                   autoSummarize := false, accessToken := none }
        else i)
    else ints

/-- `confirmConnection` (src/App.tsx:621-638) restricted to the registry:
a no-op on empty input, otherwise marks the connector connected with the
entered account. -/
def confirmConnection (ints : List IntegrationConfig) (id account : String)
    (now : Nat) : List IntegrationConfig :=
  if account = "" then ints
  else
    ints.map (fun i =>
      if i.id = id then
        { i with isConnected := true, lastSync := some now,
                 connectedAccount := some account }
      else i)

/-- `handleGmailAuthSuccess` (src/App.tsx:580-587) restricted to the
registry: marks gmail connected and stores the access token. -/
def handleGmailAuthSuccess (ints : List IntegrationConfig) (token : String)
    (now : Nat) : List IntegrationConfig :=
  ints.map (fun i =>
    if i.id = "gmail" then
      { i with isConnected := true, lastSync := some now,
               connectedAccount := some "Authenticated User",
               accessToken := some token }
    else i)

/-- `toggleAutoSummarize` (src/App.tsx:615-619): flips the connector's
auto-summarize flag, with no check of its connection state. -/
def toggleAutoSummarize (ints : List IntegrationConfig) (id : String) :
    List IntegrationConfig :=
  ints.map (fun i =>
    if i.id = id then { i with autoSummarize := !i.autoSummarize } else i)

/-- The auto-summarize toggle as reachable in the interface: the toggle
control is rendered only for a connected connector
(src/App.tsx:1520-1536), so the click operation is guarded by
`isConnected`. -/
def toggleAutoSummarizeClick (ints : List IntegrationConfig) (id : String) :
    List IntegrationConfig :=
  match ints.find? (fun i => i.id == id) with
  | none => ints
  | some integration =>
    if integration.isConnected then toggleAutoSummarize ints id else ints

/-- The connector-state invariant of the specification: the auto-trigger
flag is true only while the connected flag is true. -/
def ConnInvariant (ints : List IntegrationConfig) : Prop :=
  ∀ i ∈ ints, i.autoSummarize = true → i.isConnected = true

instance (ints : List IntegrationConfig) : Decidable (ConnInvariant ints) :=
  inferInstanceAs (Decidable (∀ i ∈ ints, _ → _))

/-! ## Call-site submission guards and remaining handlers (src/App.tsx) -/

/-- `integrations.find(i => i.id === t.source.toLowerCase())?.autoSummarize`
(src/App.tsx:859). -/
def integrationAutoOn (ints : List IntegrationConfig) (source : Source) : Bool :=
  match ints.find? (fun i => i.id == sourceLower source) with
  | some i => i.autoSummarize
  | none => false

/-- The Auto-Execute button click (src/App.tsx:1147-1155): the button is
rendered only while the selected task is PENDING and is disabled while the
global processing flag is set; only then does the click reach
`processTask`. -/
def autoExecuteClick (st : AppState) (cfg : Config) (b : Backend)
    (taskId : String) : AppState × List StatusEvent :=
  match st.tasks.find? (fun t => t.id == taskId) with
  | none => (st, [])
  | some task =>
    if task.status = TaskStatus.PENDING ∧ st.isProcessing = false then
      processTask st cfg b taskId
    else (st, [])

/-- The auto-trigger effect (src/App.tsx:856-865): find the first PENDING
task whose source connector has auto-summarize enabled and, if no run is in
flight, submit it to `processTask`. -/
def autoTrigger (st : AppState) (cfg : Config) (b : Backend) :
    AppState × List StatusEvent :=
  match st.tasks.find? (fun t =>
      t.status == TaskStatus.PENDING && integrationAutoOn st.integrations t.source) with
  | none => (st, [])
  | some pendingAutoTask =>
    if st.isProcessing = false then processTask st cfg b pendingAutoTask.id
    else (st, [])

/-- `clearHistory` (src/App.tsx:677-682): the explicit bulk clear of tasks
and trace. -/
def clearHistory (st : AppState) : AppState :=
  { st with tasks := [], logs := [] }

/-- `handleSaveEdit` (src/App.tsx:744-753): overwrite the selected task's
output content with the user's edit. -/
def handleSaveEdit (st : AppState) (selectedTaskId : Option String)
    (edited : String) : AppState :=
  match selectedTaskId with
  | none => st
  | some taskId =>
    { st with
        tasks := st.tasks.map (fun t =>
          if t.id = taskId then { t with outputContent? := some edited } else t),
        logs := st.logs ++ [mkLog AgentRole.INPUT
          "User manually updated the generated content." StepKind.ACTION] }

/-! ## The operations of the system -/

/-- One externally-triggered operation of the application: an ingestion
event, a poll resolution, a submission (bare entry point or through one of
its two guarded call sites), a connector action, or a bulk edit. -/
inductive Op
  | dispatch (source : Source) (content : String) (now : Nat)
  | streamEvent (source : Source) (sender content : String) (prio : TaskPriority) (now : Nat)
  | pollOk (emails : List GmailMessage) (now : Nat)
  | pollErr (errString : String)
  | process (cfg : Config) (b : Backend) (taskId : String)
  | submitClick (cfg : Config) (b : Backend) (taskId : String)
  | autoRun (cfg : Config) (b : Backend)
  | connectClick (id : String)
  | confirmConn (id : String) (account : String) (now : Nat)
  | gmailAuth (token : String) (now : Nat)
  | toggleAuto (id : String)
  | clearAll
  | saveEdit (selectedTaskId : Option String) (edited : String)

/-- The transition function: how each operation transforms the application
state, together with the task-status changes it performs.  Only
`processTask` (and its two call-site wrappers) ever changes a task's
status. -/
def step (st : AppState) (op : Op) : AppState × List StatusEvent :=
  match op with
  | Op.dispatch source content now => (handleManualDispatch st source content now, [])
  | Op.streamEvent source sender content prio now =>
      (streamEmit st source sender content prio now, [])
  | Op.pollOk emails now => (pollEmailsOk st emails now, [])
  | Op.pollErr errString => (pollEmailsErr st errString, [])
  | Op.process cfg b taskId => processTask st cfg b taskId
  | Op.submitClick cfg b taskId => autoExecuteClick st cfg b taskId
  | Op.autoRun cfg b => autoTrigger st cfg b
  | Op.connectClick id => ({ st with integrations := handleConnectClick st.integrations id }, [])
  | Op.confirmConn id account now =>
      ({ st with integrations := confirmConnection st.integrations id account now }, [])
  | Op.gmailAuth token now =>
      ({ st with integrations := handleGmailAuthSuccess st.integrations token now }, [])
  | Op.toggleAuto id => ({ st with integrations := toggleAutoSummarize st.integrations id }, [])
  | Op.clearAll => (clearHistory st, [])
  | Op.saveEdit selectedTaskId edited => (handleSaveEdit st selectedTaskId edited, [])

/-! ## Concrete fixtures for witnesses and counterexamples -/

/-- No credential configured anywhere. -/
def cfgNoKey : Config := { userApiKey := "", envApiKey := "" }

/-- A user-supplied credential, selecting the live backend. -/
def cfgLive : Config := { userApiKey := "test-key", envApiKey := "" }

/-- A PENDING task as created by manual dispatch. -/
def taskPending : Task :=
  { id := "task-1", source := Source.SLACK,
    rawContent := "We need a PRD for feature X, priority high",
    sender := "Demo User", timestamp := 10, status := TaskStatus.PENDING,
    type? := some TaskType.UNKNOWN }

/-- A task currently being processed. -/
def taskProcessing : Task :=
  { id := "task-2", source := Source.GMAIL, rawContent := "Invoice discrepancy",
    sender := "client@enterprise.com", timestamp := 11,
    status := TaskStatus.PROCESSING }

/-- A finished task with stored results. -/
def taskCompleted : Task :=
  { id := "task-3", source := Source.SLACK, rawContent := "SSO question",
    sender := "Mike", timestamp := 12, status := TaskStatus.COMPLETED,
    type? := some TaskType.QUESTION, priority? := some TaskPriority.MEDIUM,
    summary? := some "SSO support question", entities? := some ["SSO"],
    outputContent? := some "Draft reply", outputType? := some OutputType.EMAIL }

/-- A task whose previous run aborted. -/
def taskFailed : Task :=
  { id := "task-4", source := Source.NOTION, rawContent := "Roadmap page added",
    sender := "Notion Bot", timestamp := 13, status := TaskStatus.FAILED }

/-- A quiescent state holding one task of each status and a non-empty trace
buffer. -/
def stQuiet : AppState :=
  { tasks := [taskPending, taskProcessing, taskCompleted, taskFailed],
    logs := [mkLog AgentRole.INPUT "Received new message from SLACK" StepKind.ACTION],
    isProcessing := false, integrations := initialIntegrations }

/-- The same store while a run is in flight (the global flag set, task-2
PROCESSING). -/
def stBusy : AppState :=
  { stQuiet with isProcessing := true }

/-- A classification as returned by a successful live classifier call. -/
def classificationA : Classification :=
  { type := TaskType.ACTION_ITEM, priority := TaskPriority.HIGH,
    summary := "Draft the feature PRD", entities := ["feature X"] }

/-- A decision requesting a PRD artifact. -/
def decisionPRD : Decision :=
  { action := "Generate PRD", reasoning := "Request for a specification",
    outputType := OutputType.PRD }

/-- A backend whose decision call rejects after a successful classification:
the forced fault of the decision-stage scenario. -/
def faultyDecideBackend : Backend where
  classify := fun _ _ => Except.ok classificationA
  decide := fun _ => Except.error ()
  execute := fun _ => Except.ok "generated text"

/-- Live-call oracles with a failing classifier call. -/
def oraclesClassifyThrow : GeminiOracles :=
  { classifyCall := CallOutcome.throw, decideCall := CallOutcome.ok decisionPRD,
    executeCall := CallOutcome.ok "Generated body" }

/-- Live-call oracles with a failing execution call. -/
def oraclesExecuteThrow : GeminiOracles :=
  { classifyCall := CallOutcome.ok classificationA,
    decideCall := CallOutcome.ok decisionPRD, executeCall := CallOutcome.throw }

/-- A state whose gmail connector is connected with a live access token. -/
def stGmailConnected : AppState :=
  { tasks := [], logs := [],
    isProcessing := false,
    integrations := handleGmailAuthSuccess initialIntegrations "token-abc" 20 }

/-- Three remote mailbox items; `msgB` appears in two consecutive polls. -/
def msgA : GmailMessage :=
  { id := "a1", threadId := "t-a1", labelIds := ["INBOX"],
    snippet := "Invoice 342 discrepancy", internalDate := "1700000000001",
    subject := "Urgent: Invoice 342", from_ := "client@enterprise.com" }

/-- Second remote item, present in both polls. -/
def msgB : GmailMessage :=
  { id := "b2", threadId := "t-b2", labelIds := ["INBOX"],
    snippet := "Candidate profiles attached", internalDate := "1700000000002",
    subject := "Candidate profiles", from_ := "recruiting@agency.com" }

/-- Third remote item, only in the second poll. -/
def msgC : GmailMessage :=
  { id := "c3", threadId := "t-c3", labelIds := ["INBOX"],
    snippet := "Maintenance window scheduled", internalDate := "1700000000003",
    subject := "Maintenance window", from_ := "support@cloud.com" }

/-- The status transitions the implementation can actually perform: a run
starts from PENDING or from FAILED (manual retry through the entry point,
whose guard only blocks PROCESSING and COMPLETED) and ends in COMPLETED or
FAILED. -/
def AllowedTransition (ev : StatusEvent) : Prop :=
  (ev.2.1 = TaskStatus.PENDING ∧ ev.2.2 = TaskStatus.PROCESSING) ∨
  (ev.2.1 = TaskStatus.FAILED ∧ ev.2.2 = TaskStatus.PROCESSING) ∨
  (ev.2.1 = TaskStatus.PROCESSING ∧
    (ev.2.2 = TaskStatus.COMPLETED ∨ ev.2.2 = TaskStatus.FAILED))

/-- How many stored tasks carry a given identifier. -/
def countTasksWithId (ts : List Task) (i : String) : Nat :=
  (ts.filter (fun t => t.id == i)).length

/-! ## Helper lemmas -/

/-- `find?` by task id commutes with an id-preserving per-task update. -/
theorem find?_map_id_update (l : List Task) (taskId : String) (g : Task → Task)
    (hg : ∀ t, (g t).id = t.id) :
    (l.map g).find? (fun t => t.id == taskId) =
      (l.find? (fun t => t.id == taskId)).map g := by
  induction l with
  | nil => rfl
  | cons hd tl ih =>
    by_cases h : hd.id = taskId
    · have hb : (hd.id == taskId) = true := beq_iff_eq.mpr h
      have hgb : ((g hd).id == taskId) = true := by rw [hg hd]; exact hb
      simp only [List.map_cons, List.find?, hgb, hb, Option.map_some']
    · have hb : (hd.id == taskId) = false := by simpa using h
      have hgb : ((g hd).id == taskId) = false := by rw [hg hd]; exact hb
      simp only [List.map_cons, List.find?, hgb, hb]
      exact ih

/-- The per-task update of `startRun` preserves ids. -/
theorem startRun_update_id (taskId : String) (t : Task) :
    ((if t.id = taskId then { t with status := TaskStatus.PROCESSING } else t) : Task).id
      = t.id := by
  split <;> rfl

/-- The per-task update of `abortRun` preserves ids. -/
theorem abortRun_update_id (taskId : String) (t : Task) :
    ((if t.id = taskId then { t with status := TaskStatus.FAILED } else t) : Task).id
      = t.id := by
  split <;> rfl

/-- Looking up the submitted task after `startRun`: it is stored with status
PROCESSING. -/
theorem startRun_find (st : AppState) (taskId : String) (task : Task)
    (hfind : st.tasks.find? (fun t => t.id == taskId) = some task) :
    (startRun st taskId).tasks.find? (fun t => t.id == taskId) =
      some { task with status := TaskStatus.PROCESSING } := by
  have hid : task.id = taskId := by
    have h2 := List.find?_some hfind
    exact beq_iff_eq.mp h2
  unfold startRun
  rw [find?_map_id_update _ _ _ (startRun_update_id taskId), hfind, Option.map_some',
    if_pos hid]

/-- An id-preserving update that swaps in a replacement task with the looked-up
id. -/
theorem replace_update_id (taskId : String) (ft : Task) (hft : ft.id = taskId)
    (t : Task) : ((if t.id = taskId then ft else t) : Task).id = t.id := by
  split
  · case isTrue h => rw [hft, h]
  · rfl

/-- Characterization of a completed run: the stored task is the finalized
merge, the trace is the run's entries plus the closing MEMORY entry, and the
status events are PROCESSING then COMPLETED. -/
theorem processTask_completed_spec (st : AppState) (cfg : Config) (b : Backend)
    (taskId : String) (task : Task) (c : Classification) (d : Decision)
    (output : Option String) (logs : List AgentLog)
    (hfind : st.tasks.find? (fun t => t.id == taskId) = some task)
    (hstat : ¬(task.status = TaskStatus.PROCESSING ∨ task.status = TaskStatus.COMPLETED))
    (hrun : runStages cfg b task = RunOutcome.completed c d output logs) :
    (processTask st cfg b taskId).1.tasks.find? (fun t => t.id == taskId)
        = some (mkFinalTask task c d output) ∧
    (processTask st cfg b taskId).1.logs
        = logs ++ [mkLog AgentRole.MEMORY "Task lifecycle completed. State updated." StepKind.RESULT] ∧
    (processTask st cfg b taskId).2
        = [(taskId, task.status, TaskStatus.PROCESSING),
           (taskId, TaskStatus.PROCESSING, TaskStatus.COMPLETED)] := by
  have hb := List.find?_some hfind
  have hid : task.id = taskId := by simpa using hb
  have hftid : (mkFinalTask task c d output).id = taskId := hid
  unfold processTask
  rw [hfind]
  simp only [if_neg hstat, hrun]
  refine ⟨?_, by first | rfl | trivial, by first | rfl | trivial⟩
  show (finishRun (startRun st taskId) taskId (mkFinalTask task c d output) logs).tasks.find?
      (fun t => t.id == taskId) = some (mkFinalTask task c d output)
  unfold finishRun
  rw [show ({ startRun st taskId with
        isProcessing := false,
        logs := logs ++ [mkLog AgentRole.MEMORY "Task lifecycle completed. State updated." StepKind.RESULT],
        tasks := (startRun st taskId).tasks.map (fun t =>
          if t.id = taskId then mkFinalTask task c d output else t) } : AppState).tasks
      = (startRun st taskId).tasks.map (fun t =>
          if t.id = taskId then mkFinalTask task c d output else t) from rfl]
  rw [find?_map_id_update _ _ _ (replace_update_id taskId _ hftid),
    startRun_find st taskId task hfind, Option.map_some']
  show some (if ({ task with status := TaskStatus.PROCESSING } : Task).id = taskId
      then mkFinalTask task c d output else { task with status := TaskStatus.PROCESSING })
      = some (mkFinalTask task c d output)
  rw [show ({ task with status := TaskStatus.PROCESSING } : Task).id = task.id from rfl,
    if_pos hid]

/-- Characterization of an aborted run: the stored task is the pre-run task
with status FAILED (and no other field changed), the trace is the run's
entries plus the critical-failure entry, and the status events are
PROCESSING then FAILED. -/
theorem processTask_aborted_spec (st : AppState) (cfg : Config) (b : Backend)
    (taskId : String) (task : Task) (logs : List AgentLog)
    (hfind : st.tasks.find? (fun t => t.id == taskId) = some task)
    (hstat : ¬(task.status = TaskStatus.PROCESSING ∨ task.status = TaskStatus.COMPLETED))
    (hrun : runStages cfg b task = RunOutcome.aborted logs) :
    (processTask st cfg b taskId).1.tasks.find? (fun t => t.id == taskId)
        = some { task with status := TaskStatus.FAILED } ∧
    (processTask st cfg b taskId).1.logs
        = logs ++ [mkLog AgentRole.EXECUTION "Critical Failure in processing chain" StepKind.RESULT] ∧
    (processTask st cfg b taskId).2
        = [(taskId, task.status, TaskStatus.PROCESSING),
           (taskId, TaskStatus.PROCESSING, TaskStatus.FAILED)] := by
  have hb := List.find?_some hfind
  have hid : task.id = taskId := by simpa using hb
  unfold processTask
  rw [hfind]
  simp only [if_neg hstat, hrun]
  refine ⟨?_, by first | rfl | trivial, by first | rfl | trivial⟩
  show (abortRun (startRun st taskId) taskId logs).tasks.find?
      (fun t => t.id == taskId) = some { task with status := TaskStatus.FAILED }
  unfold abortRun
  rw [show ({ startRun st taskId with
        isProcessing := false,
        logs := logs ++ [mkLog AgentRole.EXECUTION "Critical Failure in processing chain" StepKind.RESULT],
        tasks := (startRun st taskId).tasks.map (fun t =>
          if t.id = taskId then { t with status := TaskStatus.FAILED } else t) } : AppState).tasks
      = (startRun st taskId).tasks.map (fun t =>
          if t.id = taskId then { t with status := TaskStatus.FAILED } else t) from rfl]
  rw [find?_map_id_update _ _ _ (abortRun_update_id taskId),
    startRun_find st taskId task hfind, Option.map_some']
  show some (if ({ task with status := TaskStatus.PROCESSING } : Task).id = taskId
      then ({ ({ task with status := TaskStatus.PROCESSING } : Task) with
                status := TaskStatus.FAILED } : Task)
      else { task with status := TaskStatus.PROCESSING })
      = some { task with status := TaskStatus.FAILED }
  rw [show ({ task with status := TaskStatus.PROCESSING } : Task).id = task.id from rfl,
    if_pos hid]

/-- The live backend never rejects a stage call, so a live-mode run always
reaches finalization, with the classifier wrapper's value merged first and
the execution stage consulted exactly when the decision's output kind is not
NONE. -/
theorem runStages_live_spec (cfg : Config) (o : GeminiOracles) (task : Task)
    (hkey : effectiveKey cfg ≠ "") :
    ∃ logs,
      runStages cfg (liveBackend (effectiveKey cfg) o) task =
        RunOutcome.completed
          (classifyTaskWithGemini (effectiveKey cfg) o.classifyCall task.rawContent task.sender)
          (makeDecisionWithGemini (effectiveKey cfg) o.decideCall
            (mergeClassification task
              (classifyTaskWithGemini (effectiveKey cfg) o.classifyCall task.rawContent task.sender)))
          (if (makeDecisionWithGemini (effectiveKey cfg) o.decideCall
                (mergeClassification task
                  (classifyTaskWithGemini (effectiveKey cfg) o.classifyCall task.rawContent task.sender))).outputType
              = OutputType.NONE then
            none
          else
            some (executeTaskWithGemini (effectiveKey cfg) o.executeCall
              (mergeDecision
                (mergeClassification task
                  (classifyTaskWithGemini (effectiveKey cfg) o.classifyCall task.rawContent task.sender))
                (makeDecisionWithGemini (effectiveKey cfg) o.decideCall
                  (mergeClassification task
                    (classifyTaskWithGemini (effectiveKey cfg) o.classifyCall task.rawContent task.sender))))))
          logs := by
  by_cases hd : (makeDecisionWithGemini (effectiveKey cfg) o.decideCall
      (mergeClassification task
        (classifyTaskWithGemini (effectiveKey cfg) o.classifyCall task.rawContent task.sender))).outputType
      = OutputType.NONE
  · simp only [runStages, liveBackend, if_neg hkey, if_pos hd]
    exact ⟨_, rfl⟩
  · simp only [runStages, liveBackend, if_neg hkey, if_neg hd]
    exact ⟨_, rfl⟩

/-- The simulation branch of a run: with no effective key the pipeline
always completes with the simulated classification, decision and output. -/
theorem runStages_sim_spec (cfg : Config) (b : Backend) (task : Task)
    (hkey : effectiveKey cfg = "") :
    runStages cfg b task =
      RunOutcome.completed (simClassification task) (simDecision task)
        (some (if (simDecision task).outputType = OutputType.PRD then
            simulatedPRD task else simulatedEmail task))
        (simLogs (simDecision task)) := by
  unfold runStages
  rw [if_pos hkey]

/-- C3: for every task whose status is PROCESSING or COMPLETED, the
orchestrator entry point is a no-op: the task store is unchanged, no trace
entry is produced, and the existing trace buffer is not cleared (the state
is returned exactly as submitted, with no status events). -/
theorem processTask_noop_on_processing_or_completed
    (st : AppState) (cfg : Config) (b : Backend) (taskId : String) (task : Task)
    (hfind : st.tasks.find? (fun t => t.id == taskId) = some task)
    (hstat : task.status = TaskStatus.PROCESSING ∨ task.status = TaskStatus.COMPLETED) :
    processTask st cfg b taskId = (st, []) := by
  unfold processTask
  rw [hfind]
  simp only [if_pos hstat]

/-- C3 witness: submitting the PROCESSING task of the quiescent fixture
state changes nothing. -/
theorem processTask_noop_instance :
    processTask stQuiet cfgNoKey dummyBackend "task-2" = (stQuiet, []) :=
  processTask_noop_on_processing_or_completed stQuiet cfgNoKey dummyBackend
    "task-2" taskProcessing (by decide) (Or.inl (by decide))

/-- C7: the poller's authorization-failure handling is dead code for a real
HTTP 401.  `fetchRecentEmails` surfaces a non-ok list response as
`Error: Gmail API List Error: <statusText>`; for status 401 the reason
phrase is "Unauthorized" (empty over HTTP/2), so the string never contains
"401", the `String(err).includes('401')` test fails, and the connected
gmail connector keeps its flag and its access token. -/
theorem unauthorized_poll_error_leaves_connector_connected :
    strIncludes (fetchListErrorString "Unauthorized") "401" = false ∧
    pollEmailsErr stGmailConnected (fetchListErrorString "Unauthorized")
      = stGmailConnected ∧
    ((stGmailConnected.integrations.find? (fun i => i.id == "gmail")).map
        (fun i => (i.isConnected, i.accessToken)))
      = some (true, some "token-abc") := by
  refine ⟨by decide, ?_, by decide⟩
  unfold pollEmailsErr
  rw [if_neg (by decide)]

/-- The branch the `catch` was written for: an error string that does
contain "401" disconnects the gmail connector and clears its token. -/
theorem poll_error_with_401_disconnects :
    ((pollEmailsErr stGmailConnected "Error: 401 unauthorized").integrations.find?
        (fun i => i.id == "gmail")).map (fun i => (i.isConnected, i.accessToken))
      = some (false, none) := by decide

/-- C5 counterexample: the classifier's recovery summary is the literal
"Failed to classify automatically.", not "classification failed" as
claimed. -/
theorem classifier_fallback_summary_text :
    (classifyTaskWithGemini "test-key" CallOutcome.throw
        taskPending.rawContent taskPending.sender).summary
      = "Failed to classify automatically." ∧
    (classifyTaskWithGemini "test-key" CallOutcome.throw
        taskPending.rawContent taskPending.sender).summary
      ≠ "classification failed" := by
  exact ⟨rfl, by decide⟩

/-- C5 (amended): a classification backend failure does not abort the run.
The stage substitutes the safe default — kind UNKNOWN, priority MEDIUM,
summary "Failed to classify automatically.", empty entities — and the
pipeline continues, finalizing the task COMPLETED with exactly those
classification fields, whatever the later stages' calls do. -/
theorem classifier_failure_recovers
    (st : AppState) (cfg : Config) (o : GeminiOracles) (taskId : String) (task : Task)
    (hfind : st.tasks.find? (fun t => t.id == taskId) = some task)
    (hstat : ¬(task.status = TaskStatus.PROCESSING ∨ task.status = TaskStatus.COMPLETED))
    (hkey : effectiveKey cfg ≠ "")
    (hthrow : o.classifyCall = CallOutcome.throw) :
    classifyTaskWithGemini (effectiveKey cfg) o.classifyCall task.rawContent task.sender
        = { type := TaskType.UNKNOWN, priority := TaskPriority.MEDIUM,
            summary := "Failed to classify automatically.", entities := [] } ∧
    ((processTask st cfg (liveBackend (effectiveKey cfg) o) taskId).1.tasks.find?
        (fun t => t.id == taskId)).map
        (fun t => (t.status, t.type?, t.priority?, t.summary?, t.entities?))
      = some (TaskStatus.COMPLETED, some TaskType.UNKNOWN, some TaskPriority.MEDIUM,
          some "Failed to classify automatically.", some ([] : List String)) := by
  have hcl : classifyTaskWithGemini (effectiveKey cfg) o.classifyCall
      task.rawContent task.sender
      = { type := TaskType.UNKNOWN, priority := TaskPriority.MEDIUM,
          summary := "Failed to classify automatically.", entities := [] } := by
    unfold classifyTaskWithGemini
    rw [hthrow, if_neg hkey]
  refine ⟨hcl, ?_⟩
  obtain ⟨logs, hrun⟩ := runStages_live_spec cfg o task hkey
  have hspec := processTask_completed_spec st cfg (liveBackend (effectiveKey cfg) o)
    taskId task _ _ _ logs hfind hstat hrun
  rw [hspec.1, Option.map_some']
  simp only [mkFinalTask, mergeClassification, mergeDecision, hcl]

/-- C5 witness: a live run over the pending fixture task whose classifier
call throws still completes, with the fallback classification stored. -/
theorem classifier_failure_recovers_instance :
    ((processTask stQuiet cfgLive (liveBackend (effectiveKey cfgLive) oraclesClassifyThrow)
        "task-1").1.tasks.find? (fun t => t.id == "task-1")).map
        (fun t => (t.status, t.type?, t.priority?, t.summary?, t.entities?))
      = some (TaskStatus.COMPLETED, some TaskType.UNKNOWN, some TaskPriority.MEDIUM,
          some "Failed to classify automatically.", some ([] : List String)) :=
  (classifier_failure_recovers stQuiet cfgLive oraclesClassifyThrow "task-1" taskPending
    (by decide) (by decide) (by decide) (by decide)).2

/-- C4 counterexample: with a live key, a successful classification and a
decision-stage call that throws, the run does abort in FAILED — but the
trace does contain an Execution-stage RESULT entry (the critical-failure
record), and the classification produced during the run (here a summary) is
not present on the stored task. -/
theorem decision_fault_execution_result_entry :
    faultyDecideBackend.classify taskPending.rawContent taskPending.sender
        = Except.ok classificationA ∧
    faultyDecideBackend.decide (mergeClassification taskPending classificationA)
        = Except.error () ∧
    ((processTask stQuiet cfgLive faultyDecideBackend "task-1").1.tasks.find?
        (fun t => t.id == "task-1")).map (fun t => t.status)
      = some TaskStatus.FAILED ∧
    ((processTask stQuiet cfgLive faultyDecideBackend "task-1").1.logs.filter
        (fun l => l.agent == AgentRole.EXECUTION && l.step == StepKind.RESULT)).length
      = 1 ∧
    classificationA.summary = "Draft the feature PRD" ∧
    ((processTask stQuiet cfgLive faultyDecideBackend "task-1").1.tasks.find?
        (fun t => t.id == "task-1")).map (fun t => t.summary?)
      = some none :=
  ⟨rfl, rfl, by decide, by decide, rfl, by decide⟩

/-- C4 (amended): when the decision-stage backend call throws after a
successful classification, the run aborts: the task's status is set to
FAILED; the trace is exactly the five stage entries followed by the
critical-failure record — so its only Execution-stage RESULT entry is that
failure record and no content-generation RESULT entry exists; and the
stored task is the pre-run task with only its status changed — fields set
before the run remain untouched, and the classification computed during the
aborted run is not persisted. -/
theorem decision_fault_aborts_run
    (st : AppState) (cfg : Config) (b : Backend) (taskId : String) (task : Task)
    (c : Classification)
    (hfind : st.tasks.find? (fun t => t.id == taskId) = some task)
    (hstat : ¬(task.status = TaskStatus.PROCESSING ∨ task.status = TaskStatus.COMPLETED))
    (hkey : effectiveKey cfg ≠ "")
    (hclassify : b.classify task.rawContent task.sender = Except.ok c)
    (hdecide : b.decide (mergeClassification task c) = Except.error ()) :
    (processTask st cfg b taskId).1.tasks.find? (fun t => t.id == taskId)
        = some { task with status := TaskStatus.FAILED } ∧
    (processTask st cfg b taskId).1.logs
        = [mkLog AgentRole.CLASSIFIER "Analyzing message intent and entities..." StepKind.THINKING,
           mkLog AgentRole.CLASSIFIER "Classification complete" StepKind.RESULT,
           mkLog AgentRole.MEMORY "Checking context and previous constraints..." StepKind.THINKING,
           mkLog AgentRole.MEMORY "No conflicting blocking constraints found." StepKind.RESULT,
           mkLog AgentRole.DECISION "Determining optimal execution path..." StepKind.THINKING,
           mkLog AgentRole.EXECUTION "Critical Failure in processing chain" StepKind.RESULT] ∧
    (processTask st cfg b taskId).2
        = [(taskId, task.status, TaskStatus.PROCESSING),
           (taskId, TaskStatus.PROCESSING, TaskStatus.FAILED)] := by
  have hrun : runStages cfg b task = RunOutcome.aborted
      [mkLog AgentRole.CLASSIFIER "Analyzing message intent and entities..." StepKind.THINKING,
       mkLog AgentRole.CLASSIFIER "Classification complete" StepKind.RESULT,
       mkLog AgentRole.MEMORY "Checking context and previous constraints..." StepKind.THINKING,
       mkLog AgentRole.MEMORY "No conflicting blocking constraints found." StepKind.RESULT,
       mkLog AgentRole.DECISION "Determining optimal execution path..." StepKind.THINKING] := by
    simp only [runStages, if_neg hkey, hclassify, hdecide]
  have hspec := processTask_aborted_spec st cfg b taskId task _ hfind hstat hrun
  refine ⟨hspec.1, ?_, hspec.2.2⟩
  rw [hspec.2.1]
  rfl

/-- C4 witness: the forced decision fault on the pending fixture task. -/
theorem decision_fault_aborts_run_instance :
    (processTask stQuiet cfgLive faultyDecideBackend "task-1").1.tasks.find?
        (fun t => t.id == "task-1")
      = some { taskPending with status := TaskStatus.FAILED } :=
  (decision_fault_aborts_run stQuiet cfgLive faultyDecideBackend "task-1" taskPending
    classificationA (by decide) (by decide) (by decide) rfl rfl).1

/-- C10: an execution-stage backend failure is silently recoverable: in a
live run whose decision output kind is not NONE, a throwing content
generation call makes `executeTaskWithGemini` return the literal
"Error generating content.", and the run still finalizes COMPLETED with that
string stored as the task's output content. -/
theorem execution_fault_completes_with_error_string
    (st : AppState) (cfg : Config) (o : GeminiOracles) (taskId : String) (task : Task)
    (d : Decision)
    (hfind : st.tasks.find? (fun t => t.id == taskId) = some task)
    (hstat : ¬(task.status = TaskStatus.PROCESSING ∨ task.status = TaskStatus.COMPLETED))
    (hkey : effectiveKey cfg ≠ "")
    (hdec : o.decideCall = CallOutcome.ok d)
    (hne : d.outputType ≠ OutputType.NONE)
    (hexec : o.executeCall = CallOutcome.throw) :
    (∀ t : Task, executeTaskWithGemini (effectiveKey cfg) o.executeCall t
        = "Error generating content.") ∧
    ((processTask st cfg (liveBackend (effectiveKey cfg) o) taskId).1.tasks.find?
        (fun t => t.id == taskId)).map (fun t => (t.status, t.outputContent?))
      = some (TaskStatus.COMPLETED, some "Error generating content.") := by
  have hex : ∀ t : Task, executeTaskWithGemini (effectiveKey cfg) o.executeCall t
      = "Error generating content." := by
    intro t
    unfold executeTaskWithGemini
    rw [hexec, if_neg hkey]
  refine ⟨hex, ?_⟩
  obtain ⟨logs, hrun⟩ := runStages_live_spec cfg o task hkey
  have hd2 : makeDecisionWithGemini (effectiveKey cfg) o.decideCall
      (mergeClassification task
        (classifyTaskWithGemini (effectiveKey cfg) o.classifyCall task.rawContent task.sender))
      = d := by
    unfold makeDecisionWithGemini
    rw [hdec, if_neg hkey]
  rw [hd2, if_neg hne, hex _] at hrun
  have hspec := processTask_completed_spec st cfg (liveBackend (effectiveKey cfg) o)
    taskId task _ _ _ logs hfind hstat hrun
  rw [hspec.1, Option.map_some']
  simp only [mkFinalTask, mergeDecision, mergeClassification]

/-- C10 witness: the throwing execution call on the pending fixture task
under a PRD decision still yields a COMPLETED task holding the error
string. -/
theorem execution_fault_completes_instance :
    ((processTask stQuiet cfgLive (liveBackend (effectiveKey cfgLive) oraclesExecuteThrow)
        "task-1").1.tasks.find? (fun t => t.id == "task-1")).map
        (fun t => (t.status, t.outputContent?))
      = some (TaskStatus.COMPLETED, some "Error generating content.") :=
  (execution_fault_completes_with_error_string stQuiet cfgLive oraclesExecuteThrow
    "task-1" taskPending decisionPRD (by decide) (by decide) (by decide) (by decide)
    (by decide) (by decide)).2

/-- C2 counterexample: while a run is in flight (global processing flag
set), invoking the entry point on a distinct PENDING task is not rejected:
it performs status changes and mutates the submitted task, starting a second
run. -/
theorem second_run_starts_while_processing :
    stBusy.isProcessing = true ∧
    ((stBusy.tasks.find? (fun t => t.id == "task-2")).map (fun t => t.status)
        = some TaskStatus.PROCESSING) ∧
    ((stBusy.tasks.find? (fun t => t.id == "task-1")).map (fun t => t.status)
        = some TaskStatus.PENDING) ∧
    (processTask stBusy cfgNoKey dummyBackend "task-1").2 ≠ [] ∧
    ((processTask stBusy cfgNoKey dummyBackend "task-1").1.tasks.find?
        (fun t => t.id == "task-1")).map (fun t => t.status)
      ≠ some TaskStatus.PENDING := by decide

/-- C2 (amended): the single-flight property is enforced only at the entry
point's two call sites, not by the entry point itself: while the global
processing flag is set, the Auto-Execute click (the button is disabled) and
the auto-trigger rule both return the state unchanged with no status
events. -/
theorem submission_call_sites_reject_while_processing
    (st : AppState) (cfg : Config) (b : Backend) (taskId : String)
    (h : st.isProcessing = true) :
    autoExecuteClick st cfg b taskId = (st, []) ∧ autoTrigger st cfg b = (st, []) := by
  constructor
  · unfold autoExecuteClick
    cases hf : st.tasks.find? (fun t => t.id == taskId) with
    | none => rfl
    | some task =>
      have hng : ¬(task.status = TaskStatus.PENDING ∧ st.isProcessing = false) := by
        intro hcontra
        rw [h] at hcontra
        exact absurd hcontra.2 (by decide)
      simp only [if_neg hng]
  · unfold autoTrigger
    cases hf : st.tasks.find? (fun t =>
        t.status == TaskStatus.PENDING && integrationAutoOn st.integrations t.source) with
    | none => rfl
    | some task =>
      have hng : ¬(st.isProcessing = false) := by
        intro hcontra
        rw [h] at hcontra
        exact absurd hcontra (by decide)
      simp only [if_neg hng]

/-- C2 witness: with the fixture store busy, both call sites reject. -/
theorem submission_call_sites_reject_instance :
    autoExecuteClick stBusy cfgNoKey dummyBackend "task-1" = (stBusy, []) ∧
    autoTrigger stBusy cfgNoKey dummyBackend = (stBusy, []) :=
  submission_call_sites_reject_while_processing stBusy cfgNoKey dummyBackend "task-1" rfl

/-- Every status change the entry point performs is an allowed transition:
the run starts from PENDING or FAILED (the guard blocks the rest) and ends
in COMPLETED or FAILED. -/
theorem processTask_events_allowed (st : AppState) (cfg : Config) (b : Backend)
    (taskId : String) :
    ∀ ev ∈ (processTask st cfg b taskId).2, AllowedTransition ev := by
  unfold processTask
  cases hf : st.tasks.find? (fun t => t.id == taskId) with
  | none =>
    intro ev hev
    simp at hev
  | some task =>
    by_cases hg : task.status = TaskStatus.PROCESSING ∨ task.status = TaskStatus.COMPLETED
    · simp only [if_pos hg]
      intro ev hev
      simp at hev
    · have hstat2 : task.status = TaskStatus.PENDING ∨ task.status = TaskStatus.FAILED := by
        cases ht : task.status with
        | PENDING => exact Or.inl rfl
        | PROCESSING => exact absurd (Or.inl ht) hg
        | COMPLETED => exact absurd (Or.inr ht) hg
        | FAILED => exact Or.inr rfl
      simp only [if_neg hg]
      cases hr : runStages cfg b task with
      | completed c d output logs =>
        intro ev hev
        simp at hev
        unfold AllowedTransition
        rcases hev with rfl | rfl
        · rcases hstat2 with h | h
          · exact Or.inl ⟨h, rfl⟩
          · exact Or.inr (Or.inl ⟨h, rfl⟩)
        · exact Or.inr (Or.inr ⟨rfl, Or.inl rfl⟩)
      | aborted logs =>
        intro ev hev
        simp at hev
        unfold AllowedTransition
        rcases hev with rfl | rfl
        · rcases hstat2 with h | h
          · exact Or.inl ⟨h, rfl⟩
          · exact Or.inr (Or.inl ⟨h, rfl⟩)
        · exact Or.inr (Or.inr ⟨rfl, Or.inr rfl⟩)

/-- C1 counterexample: a task in the terminal status FAILED is re-admitted
by the entry point and re-enters PROCESSING — the guard only blocks
PROCESSING and COMPLETED. -/
theorem failed_task_reenters_processing :
    ((stQuiet.tasks.find? (fun t => t.id == "task-4")).map (fun t => t.status)
        = some TaskStatus.FAILED) ∧
    ("task-4", TaskStatus.FAILED, TaskStatus.PROCESSING) ∈
      (step stQuiet (Op.process cfgNoKey dummyBackend "task-4")).2 := by decide

/-- C1 (amended): over every state and every operation, a task's status only
ever changes along PENDING → PROCESSING → (COMPLETED or FAILED), or along
FAILED → PROCESSING (manual resubmission of a FAILED task through the entry
point).  A COMPLETED task never re-enters PROCESSING, and no task moves from
PENDING directly to a terminal status. -/
theorem step_status_transitions_allowed (st : AppState) (op : Op) :
    ∀ ev ∈ (step st op).2, AllowedTransition ev := by
  cases op with
  | process cfg b taskId => exact processTask_events_allowed st cfg b taskId
  | submitClick cfg b taskId =>
    show ∀ ev ∈ (autoExecuteClick st cfg b taskId).2, AllowedTransition ev
    unfold autoExecuteClick
    cases hf : st.tasks.find? (fun t => t.id == taskId) with
    | none =>
      intro ev hev
      simp at hev
    | some task =>
      by_cases hc : task.status = TaskStatus.PENDING ∧ st.isProcessing = false
      · simp only [if_pos hc]
        exact processTask_events_allowed st cfg b taskId
      · simp only [if_neg hc]
        intro ev hev
        simp at hev
  | autoRun cfg b =>
    show ∀ ev ∈ (autoTrigger st cfg b).2, AllowedTransition ev
    unfold autoTrigger
    cases hf : st.tasks.find? (fun t =>
        t.status == TaskStatus.PENDING && integrationAutoOn st.integrations t.source) with
    | none =>
      intro ev hev
      simp at hev
    | some task =>
      by_cases hc : st.isProcessing = false
      · simp only [if_pos hc]
        exact processTask_events_allowed st cfg b task.id
      · simp only [if_neg hc]
        intro ev hev
        simp at hev
  | dispatch source content now =>
    intro ev hev
    simp [step] at hev
  | streamEvent source sender content prio now =>
    intro ev hev
    simp [step] at hev
  | pollOk emails now =>
    intro ev hev
    simp [step] at hev
  | pollErr errString =>
    intro ev hev
    simp [step] at hev
  | connectClick id =>
    intro ev hev
    simp [step] at hev
  | confirmConn id account now =>
    intro ev hev
    simp [step] at hev
  | gmailAuth token now =>
    intro ev hev
    simp [step] at hev
  | toggleAuto id =>
    intro ev hev
    simp [step] at hev
  | clearAll =>
    intro ev hev
    simp [step] at hev
  | saveEdit selectedTaskId edited =>
    intro ev hev
    simp [step] at hev

/-- C1 witness: the FAILED → PROCESSING event performed on the fixture state
is among the allowed transitions. -/
theorem step_status_transitions_allowed_instance :
    AllowedTransition ("task-4", TaskStatus.FAILED, TaskStatus.PROCESSING) :=
  step_status_transitions_allowed stQuiet (Op.process cfgNoKey dummyBackend "task-4")
    ("task-4", TaskStatus.FAILED, TaskStatus.PROCESSING) (by decide)

/-- C9 counterexample: `toggleAutoSummarize` itself does not check the
connection state: applied to the initial registry (all disconnected, the
invariant holds) it sets the slack connector's auto-trigger flag while the
connector stays disconnected, breaking the invariant. -/
theorem toggle_on_disconnected_breaks_invariant :
    ConnInvariant initialIntegrations ∧
    ¬ ConnInvariant (toggleAutoSummarize initialIntegrations "slack") ∧
    ((toggleAutoSummarize initialIntegrations "slack").find?
        (fun i => i.id == "slack")).map (fun i => (i.isConnected, i.autoSummarize))
      = some (false, true) := by decide

/-- C9 (amended): over a registry with distinct connector ids, the
connect, disconnect and interface-level auto-trigger-toggle operations all
preserve the invariant that auto-trigger is set only while connected — the
toggle preserves it only because the interface renders the toggle control
solely for connected connectors — and disconnecting a connected connector
leaves its record disconnected with the credential handle and the
auto-trigger flag cleared. -/
theorem connector_ops_preserve_invariant
    (ints : List IntegrationConfig) (id account token : String) (now : Nat)
    (hnodup : (ints.map (fun i => i.id)).Nodup)
    (hinv : ConnInvariant ints) :
    ConnInvariant (handleConnectClick ints id) ∧
    ConnInvariant (confirmConnection ints id account now) ∧
    ConnInvariant (handleGmailAuthSuccess ints token now) ∧
    ConnInvariant (toggleAutoSummarizeClick ints id) ∧
    (((ints.find? (fun i => i.id == id)).map (fun i => i.isConnected) = some true) →
      ∀ i ∈ handleConnectClick ints id, i.id = id →
        i.isConnected = false ∧ i.accessToken = none ∧ i.autoSummarize = false) := by
  refine ⟨?_, ?_, ?_, ?_, ?_⟩
  · unfold handleConnectClick
    cases hf : ints.find? (fun i => i.id == id) with
    | none => exact hinv
    | some integration =>
      by_cases hconn : integration.isConnected
      · simp only [if_pos hconn]
        intro i hi
        obtain ⟨j, hj, rfl⟩ := List.mem_map.mp hi
        by_cases hjid : j.id = id
        · simp only [if_pos hjid]
          intro hauto
          simp at hauto
        · simp only [if_neg hjid]
          exact hinv j hj
      · simp only [if_neg hconn]
        exact hinv
  · unfold confirmConnection
    by_cases hacct : account = ""
    · simp only [if_pos hacct]
      exact hinv
    · simp only [if_neg hacct]
      intro i hi
      obtain ⟨j, hj, rfl⟩ := List.mem_map.mp hi
      by_cases hjid : j.id = id
      · simp only [if_pos hjid]
        intro _
        trivial
      · simp only [if_neg hjid]
        exact hinv j hj
  · unfold handleGmailAuthSuccess
    intro i hi
    obtain ⟨j, hj, rfl⟩ := List.mem_map.mp hi
    by_cases hjid : j.id = "gmail"
    · simp only [if_pos hjid]
      intro _
      trivial
    · simp only [if_neg hjid]
      exact hinv j hj
  · unfold toggleAutoSummarizeClick
    cases hf : ints.find? (fun i => i.id == id) with
    | none => exact hinv
    | some integration =>
      by_cases hconn : integration.isConnected
      · simp only [if_pos hconn]
        unfold toggleAutoSummarize
        intro i hi
        obtain ⟨j, hj, rfl⟩ := List.mem_map.mp hi
        by_cases hjid : j.id = id
        · have hmem : integration ∈ ints := List.mem_of_find?_eq_some hf
          have hb := List.find?_some hf
          have hiid : integration.id = id := by simpa using hb
          have hj_eq : j = integration :=
            List.inj_on_of_nodup_map hnodup hj hmem (by rw [hjid, hiid])
          simp only [if_pos hjid]
          intro _
          show j.isConnected = true
          rw [hj_eq]
          exact hconn
        · simp only [if_neg hjid]
          exact hinv j hj
      · simp only [if_neg hconn]
        exact hinv
  · intro hfind2 i hi hiid
    cases hff : ints.find? (fun i => i.id == id) with
    | none =>
      rw [hff] at hfind2
      simp at hfind2
    | some w =>
      rw [hff] at hfind2
      rw [Option.map_some'] at hfind2
      have hwconn : w.isConnected = true := by simpa using hfind2
      unfold handleConnectClick at hi
      rw [hff] at hi
      simp only [if_pos hwconn] at hi
      obtain ⟨j, hj, rfl⟩ := List.mem_map.mp hi
      by_cases hjid : j.id = id
      · simp only [if_pos hjid]
        exact ⟨trivial, trivial, trivial⟩
      · simp only [if_neg hjid] at hiid
        exact absurd hiid hjid

/-- C9 witness: the preserved invariant instantiated on the initial
registry. -/
theorem connector_ops_preserve_invariant_instance :
    ConnInvariant (handleConnectClick initialIntegrations "slack") ∧
    ConnInvariant (confirmConnection initialIntegrations "slack" "user@example.com" 7) ∧
    ConnInvariant (handleGmailAuthSuccess initialIntegrations "tok" 7) ∧
    ConnInvariant (toggleAutoSummarizeClick initialIntegrations "slack") ∧
    (((initialIntegrations.find? (fun i => i.id == "slack")).map
        (fun i => i.isConnected) = some true) →
      ∀ i ∈ handleConnectClick initialIntegrations "slack", i.id = "slack" →
        i.isConnected = false ∧ i.accessToken = none ∧ i.autoSummarize = false) :=
  connector_ops_preserve_invariant initialIntegrations "slack" "user@example.com"
    "tok" 7 (by decide) (by decide)

/-- A string with a non-empty left component is non-empty. -/
theorem append_left_ne_empty (a b : String) (ha : a ≠ "") : a ++ b ≠ "" := by
  intro h
  apply ha
  have hd := congrArg String.data h
  rw [String.data_append] at hd
  exact String.ext (List.append_eq_nil.mp (by simpa using hd)).1

/-- The simulated PRD output carries the "Simulated PRD" marker. -/
theorem simulatedPRD_marker (task : Task) :
    ∃ x y, simulatedPRD task = x ++ ("Simulated PRD" ++ y) := by
  refine ⟨"# ", "\n\n**Feature**: " ++ (jsInterp task.summary? ++
    "\n\n## Overview\nThis is a generated response in simulation mode because a valid Gemini API Key was not detected.\n\nTo get real AI responses:\n1. Go to Settings\n2. Enter your Google Gemini API Key\n\n## Requirements\n- [ ] Requirement 1\n- [ ] Requirement 2"), ?_⟩
  unfold simulatedPRD
  rw [String.append_assoc]
  rw [show ("# Simulated PRD\n\n**Feature**: " : String)
      = "# " ++ ("Simulated PRD" ++ "\n\n**Feature**: ") from by decide]
  rw [String.append_assoc, String.append_assoc]

/-- C8: a run started with no credential (no user key, no environment key)
runs entirely on the simulation branch — the backend argument cannot
influence the result — and finalizes the task COMPLETED with the simulated
classification (kind ACTION_ITEM), a non-empty summary and non-empty output
content; for a task with source SLACK, the simulated decision's output kind
is PRD and the output content contains the "Simulated PRD" marker. -/
theorem no_credential_run_simulates_and_completes
    (st : AppState) (cfg : Config) (taskId : String) (task : Task)
    (hfind : st.tasks.find? (fun t => t.id == taskId) = some task)
    (hstat : ¬(task.status = TaskStatus.PROCESSING ∨ task.status = TaskStatus.COMPLETED))
    (huser : cfg.userApiKey = "") (henv : cfg.envApiKey = "") :
    (∀ b1 b2 : Backend, processTask st cfg b1 taskId = processTask st cfg b2 taskId) ∧
    (∀ b : Backend,
      ((processTask st cfg b taskId).1.tasks.find? (fun t => t.id == taskId)).map
          (fun t => (t.status, t.type?, t.summary?, t.outputType?, t.outputContent?))
        = some (TaskStatus.COMPLETED, some TaskType.ACTION_ITEM,
            some (simClassification task).summary,
            some (if task.source = Source.GMAIL then OutputType.EMAIL else OutputType.PRD),
            some (if (simDecision task).outputType = OutputType.PRD then
              simulatedPRD task else simulatedEmail task))) ∧
    (simClassification task).summary ≠ "" ∧
    (if (simDecision task).outputType = OutputType.PRD then
        simulatedPRD task else simulatedEmail task) ≠ "" ∧
    (task.source = Source.SLACK →
      (simDecision task).outputType = OutputType.PRD ∧
      ∃ x y, (if (simDecision task).outputType = OutputType.PRD then
          simulatedPRD task else simulatedEmail task)
        = x ++ ("Simulated PRD" ++ y)) := by
  have hkey : effectiveKey cfg = "" := by
    unfold effectiveKey
    rw [huser, if_pos rfl, henv]
  refine ⟨?_, ?_, ?_, ?_, ?_⟩
  · intro b1 b2
    unfold processTask
    rw [hfind]
    simp only [if_neg hstat]
    rw [runStages_sim_spec cfg b1 task hkey, runStages_sim_spec cfg b2 task hkey]
  · intro b
    have hrun := runStages_sim_spec cfg b task hkey
    have hspec := processTask_completed_spec st cfg b taskId task _ _ _ _ hfind hstat hrun
    rw [hspec.1, Option.map_some']
    simp only [mkFinalTask, mergeClassification, mergeDecision, simClassification, simDecision]
  · exact append_left_ne_empty _ _ (append_left_ne_empty "[Simulated] " _ (by decide))
  · by_cases hsrc : task.source = Source.GMAIL
    · simp only [simDecision, if_pos hsrc]
      unfold simulatedEmail
      exact append_left_ne_empty _ _ (append_left_ne_empty "Subject: Re: " _ (by decide))
    · simp only [simDecision, if_neg hsrc]
      unfold simulatedPRD
      exact append_left_ne_empty _ _
        (append_left_ne_empty "# Simulated PRD\n\n**Feature**: " _ (by decide))
  · intro hslack
    have hng : ¬ (task.source = Source.GMAIL) := by
      rw [hslack]
      intro h
      exact absurd h (by decide)
    constructor
    · simp only [simDecision, if_neg hng]
    · simp only [simDecision, if_neg hng]
      exact simulatedPRD_marker task

/-- C8 witness: dispatching the SLACK fixture task with no credential
completes it with the simulated classification, the PRD output kind and the
simulated PRD content. -/
theorem no_credential_run_completes_instance :
    ((processTask stQuiet cfgNoKey dummyBackend "task-1").1.tasks.find?
        (fun t => t.id == "task-1")).map
        (fun t => (t.status, t.type?, t.summary?, t.outputType?, t.outputContent?))
      = some (TaskStatus.COMPLETED, some TaskType.ACTION_ITEM,
          some (simClassification taskPending).summary,
          some (if taskPending.source = Source.GMAIL then OutputType.EMAIL else OutputType.PRD),
          some (if (simDecision taskPending).outputType = OutputType.PRD then
            simulatedPRD taskPending else simulatedEmail taskPending)) :=
  ((no_credential_run_simulates_and_completes stQuiet cfgNoKey "task-1" taskPending
    (by decide) (by decide) rfl rfl).2.1) dummyBackend

/-- The length of a filtered list is the count of satisfying elements. -/
theorem length_filter_eq_countP (p : Task → Bool) (l : List Task) :
    (l.filter p).length = l.countP p := by
  induction l with
  | nil => rfl
  | cons a l ih =>
    by_cases h : p a
    · simp [List.filter_cons, List.countP_cons, h, ih]
    · simp [List.filter_cons, List.countP_cons, h, ih]

/-- The task list produced by a successful poll: the admitted items mapped
to tasks, prepended to the store. -/
theorem pollEmailsOk_tasks (st : AppState) (emails : List GmailMessage) (now : Nat) :
    (pollEmailsOk st emails now).tasks =
      ((emails.filter (fun e =>
          (st.tasks.find? (fun t => t.id == gmailTaskId e.id)).isNone)).map
        (mkGmailTask now)) ++ st.tasks := by
  simp only [pollEmailsOk]
  split
  · rfl
  · next h =>
    have hlen := Nat.eq_zero_of_not_pos h
    rw [List.length_eq_zero.mp hlen]
    rfl

/-- The derived local identifier is injective in the remote id. -/
theorem gmailTaskId_inj {a b : String} (h : gmailTaskId a = gmailTaskId b) : a = b := by
  unfold gmailTaskId at h
  have hd := congrArg String.data h
  rw [String.data_append, String.data_append] at hd
  exact String.ext (List.append_cancel_left hd)

/-- Counting tasks with a derived identifier among freshly admitted items
counts the matching remote ids. -/
theorem countTasks_map_mkGmailTask (es : List GmailMessage) (now : Nat) (rid : String) :
    countTasksWithId (es.map (mkGmailTask now)) (gmailTaskId rid)
      = (es.map (fun e => e.id)).count rid := by
  unfold countTasksWithId
  rw [length_filter_eq_countP, List.countP_map]
  rw [show ((es.map (fun e => e.id)).count rid)
      = (es.map (fun e => e.id)).countP (fun b => b == rid) from rfl]
  rw [List.countP_map]
  apply List.countP_congr
  intro e _
  constructor
  · intro h
    have h2 : gmailTaskId e.id = gmailTaskId rid := by simpa [mkGmailTask] using h
    simp [gmailTaskId_inj h2]
  · intro h
    have h2 : e.id = rid := by simpa using h
    simp [mkGmailTask, h2]

/-- Filtering with a predicate that holds on every matching element does not
change how often a remote id occurs among the mapped ids. -/
theorem count_map_filter_eq (es : List GmailMessage) (q : GmailMessage → Bool)
    (rid : String) (hq : ∀ e ∈ es, e.id = rid → q e = true) :
    ((es.filter q).map (fun e => e.id)).count rid
      = (es.map (fun e => e.id)).count rid := by
  induction es with
  | nil => rfl
  | cons e es ih =>
    have ih2 := ih (fun x hx => hq x (List.mem_cons_of_mem e hx))
    by_cases hqe : q e = true
    · simp [List.filter_cons, hqe, List.count_cons, ih2]
    · have heid : e.id ≠ rid := fun h => hqe (hq e (List.mem_cons_self e es) h)
      simp [List.filter_cons, hqe, List.count_cons, heid, ih2]

/-- C6: polling the external mailbox is idempotent per remote item.  Each
remote item maps to the deterministic identifier `gmail-<remoteId>` and is
admitted only when no stored task already carries that identifier, so after
two consecutive polls with overlapping result sets (each poll listing
distinct remote ids, over a store not already holding those identifiers) the
store contains exactly one task per distinct remote item ever returned. -/
theorem poll_twice_admits_each_item_once
    (st : AppState) (e1 e2 : List GmailMessage) (n1 n2 : Nat)
    (h1 : (e1.map (fun e => e.id)).Nodup)
    (h2 : (e2.map (fun e => e.id)).Nodup)
    (hfresh : ∀ e ∈ e1 ++ e2, ∀ t ∈ st.tasks, t.id ≠ gmailTaskId e.id) :
    ∀ rid ∈ (e1 ++ e2).map (fun e => e.id),
      countTasksWithId (pollEmailsOk (pollEmailsOk st e1 n1) e2 n2).tasks
        (gmailTaskId rid) = 1 := by
  intro rid hrid
  obtain ⟨e0, he0, rfl⟩ := List.mem_map.mp hrid
  have hfilter1 : e1.filter (fun e =>
      (st.tasks.find? (fun t => t.id == gmailTaskId e.id)).isNone) = e1 := by
    apply List.filter_eq_self.mpr
    intro e he
    have hnone : st.tasks.find? (fun t => t.id == gmailTaskId e.id) = none :=
      List.find?_eq_none.mpr (fun t ht => by
        simpa using hfresh e (List.mem_append.mpr (Or.inl he)) t ht)
    rw [hnone]
    rfl
  have htasks1 : (pollEmailsOk st e1 n1).tasks = e1.map (mkGmailTask n1) ++ st.tasks := by
    rw [pollEmailsOk_tasks, hfilter1]
  have htasks2 : (pollEmailsOk (pollEmailsOk st e1 n1) e2 n2).tasks =
      ((e2.filter (fun e => ((pollEmailsOk st e1 n1).tasks.find?
          (fun t => t.id == gmailTaskId e.id)).isNone)).map (mkGmailTask n2))
        ++ (e1.map (mkGmailTask n1) ++ st.tasks) := by
    rw [pollEmailsOk_tasks, htasks1]
  have hsplit : ∀ (l1 l2 : List Task) (g : String),
      countTasksWithId (l1 ++ l2) g = countTasksWithId l1 g + countTasksWithId l2 g := by
    intro l1 l2 g
    unfold countTasksWithId
    rw [List.filter_append, List.length_append]
  rw [htasks2, hsplit, hsplit]
  have hstore0 : countTasksWithId st.tasks (gmailTaskId e0.id) = 0 := by
    unfold countTasksWithId
    rw [List.filter_eq_nil.mpr (fun t ht => by simpa using hfresh e0 he0 t ht)]
    rfl
  have hcount1 := countTasks_map_mkGmailTask e1 n1 e0.id
  have hcount2 := countTasks_map_mkGmailTask
    (e2.filter (fun e => ((pollEmailsOk st e1 n1).tasks.find?
      (fun t => t.id == gmailTaskId e.id)).isNone)) n2 e0.id
  rw [hstore0, hcount1, hcount2]
  by_cases hmem1 : e0.id ∈ e1.map (fun e => e.id)
  · -- already admitted during poll 1: poll 2 skips it
    have hc1 : (e1.map (fun e => e.id)).count e0.id = 1 :=
      List.count_eq_one_of_mem h1 hmem1
    have hc2 : ((e2.filter (fun e => ((pollEmailsOk st e1 n1).tasks.find?
        (fun t => t.id == gmailTaskId e.id)).isNone)).map (fun e => e.id)).count e0.id
        = 0 := by
      apply List.count_eq_zero.mpr
      intro hmem
      obtain ⟨e, hef, heid⟩ := List.mem_map.mp hmem
      obtain ⟨he2, hqe⟩ := List.mem_filter.mp hef
      obtain ⟨x, hx, hxid⟩ := List.mem_map.mp hmem1
      have hsome : (pollEmailsOk st e1 n1).tasks.find?
          (fun t => t.id == gmailTaskId e.id) ≠ none := by
        rw [htasks1]
        intro hnone
        rw [List.find?_eq_none] at hnone
        apply hnone (mkGmailTask n1 x)
          (List.mem_append.mpr (Or.inl (List.mem_map_of_mem _ hx)))
        simp [mkGmailTask, hxid, heid]
      exact hsome (Option.isNone_iff_eq_none.mp hqe)
    rw [hc1, hc2]
  · -- new in poll 2: admitted exactly once there
    have he2mem : e0 ∈ e2 := by
      rcases List.mem_append.mp he0 with h | h
      · exact absurd (List.mem_map_of_mem _ h) hmem1
      · exact h
    have hc1 : (e1.map (fun e => e.id)).count e0.id = 0 :=
      List.count_eq_zero.mpr hmem1
    have hq_true : ∀ e ∈ e2, e.id = e0.id →
        ((pollEmailsOk st e1 n1).tasks.find?
          (fun t => t.id == gmailTaskId e.id)).isNone = true := by
      intro e he heid
      rw [htasks1]
      rw [Option.isNone_iff_eq_none]
      apply List.find?_eq_none.mpr
      intro t ht
      rcases List.mem_append.mp ht with hin | hin
      · obtain ⟨x, hx, rfl⟩ := List.mem_map.mp hin
        intro hbeq
        have hgid : gmailTaskId x.id = gmailTaskId e.id := by
          simpa [mkGmailTask] using hbeq
        have : x.id = e.id := gmailTaskId_inj hgid
        apply hmem1
        rw [← heid, ← this]
        exact List.mem_map_of_mem _ hx
      · simpa using hfresh e (List.mem_append.mpr (Or.inr he)) t hin
    have hc2 : ((e2.filter (fun e => ((pollEmailsOk st e1 n1).tasks.find?
        (fun t => t.id == gmailTaskId e.id)).isNone)).map (fun e => e.id)).count e0.id
        = 1 := by
      rw [count_map_filter_eq _ _ _ hq_true]
      exact List.count_eq_one_of_mem h2 (List.mem_map_of_mem _ he2mem)
    rw [hc1, hc2]


/-- C6 witness: polls [a1, b2] then [b2, c3] admit the shared item b2
exactly once. -/
theorem poll_twice_admits_each_item_once_instance :
    countTasksWithId (pollEmailsOk (pollEmailsOk stGmailConnected [msgA, msgB] 100)
        [msgB, msgC] 200).tasks (gmailTaskId "b2") = 1 :=
  poll_twice_admits_each_item_once stGmailConnected [msgA, msgB] [msgB, msgC] 100 200
    (by decide) (by decide) (by decide) "b2" (by decide)

end OpsPilot
